import Mathlib

/-!
Shallow embedding of the notification core of `nutrition_agent.py`
(class `NutritionAgent` and its helpers).

Modelling conventions:
* Instants are integer epoch seconds.  An aware `datetime` is a pair of its
  absolute UTC second count and the UTC offset (in seconds) of its `tzinfo`;
  timezone names are modelled by their fixed offset in seconds.
* Python `float` arithmetic is modelled by exact arithmetic: rationals for
  the nutrient/weight computations and reals where a square root is taken
  (cosine similarity).
* Python `dict`s are association lists looked up by first key occurrence;
  `dict` insertion order is list order.
* `str` values are Lean `String`s; Python slicing/`replace` act on code
  points, modelled on the `List Char` contents.
* The stochastic `random.random() < 0.1` draw of `resolve_triggers` is
  injected as the boolean field `viralDraw` of the agent state.
-/

set_option maxRecDepth 8000

namespace Nutrition

/-- Aware datetime: absolute UTC seconds plus the offset of its tzinfo. -/
structure DT where
  utc : Int
  off : Int
deriving DecidableEq, Repr

/-- Seconds-of-local-day wall clock for a given timezone offset. -/
def localSecOfDay (tzOff : Int) (now : DT) : Int :=
  (now.utc + tzOff) % 86400

/-- Local wall-clock hour (`datetime.hour` after `astimezone`). -/
def localHour (tzOff : Int) (now : DT) : Int :=
  localSecOfDay tzOff now / 3600

/-- Instant of `now.replace(hour=0, minute=0, second=0, microsecond=0)`:
midnight of `now`'s date in `now`'s own tzinfo, as absolute UTC seconds. -/
def midnightOf (now : DT) : Int :=
  now.utc - (now.utc + now.off) % 86400

/-- Python dict lookup on an association list (first occurrence of the key). -/
def lookupA {α : Type} (l : List (String × α)) (k : String) : Option α :=
  (l.find? (fun p => p.1 == k)).map (·.2)

/-- Python `d.get(k, default)`. -/
def lookupD {α : Type} (l : List (String × α)) (k : String) (d : α) : α :=
  (lookupA l k).getD d

/-- Python `d[k] = v`: replace the first binding of `k`, else append. -/
def setA {α : Type} (k : String) (v : α) : List (String × α) → List (String × α)
  | [] => [(k, v)]
  | (k', v') :: t => if k' = k then (k, v) :: t else (k', v') :: setA k v t

/-- Python `lst[-n:]`: the most recent `n` entries of a list. -/
def lastN {α : Type} (n : Nat) (l : List α) : List α :=
  l.drop (l.length - n)

/-- Character-list test that `p` begins `s` (used by `replaceAll`). -/
def leadsWith : List Char → List Char → Bool
  | [], _ => true
  | _ :: _, [] => false
  | p :: ps, c :: cs => p == c && leadsWith ps cs

/-- Left-to-right, non-overlapping replacement of a non-empty pattern
`p :: ps` by `rep`, as Python `str.replace` does.  The fuel argument is a
step bound making the recursion structural; every step consumes at least
one input character, so fuel equal to the input length always suffices. -/
def replCore (p : Char) (ps rep : List Char) : Nat → List Char → List Char
  | 0, s => s
  | _ + 1, [] => []
  | f + 1, c :: cs =>
    if leadsWith (p :: ps) (c :: cs) then
      rep ++ replCore p ps rep f (cs.drop ps.length)
    else
      c :: replCore p ps rep f cs

/-- Python `s.replace(pat, rep)` for the non-empty patterns used here
(an empty pattern leaves the string unchanged in this model). -/
def replaceAll (s pat rep : String) : String :=
  match pat.data with
  | [] => s
  | p :: ps => String.mk (replCore p ps rep.data s.data.length s.data)

/-- Python `str.lower()` (per-character lowercasing; ASCII in this data). -/
def lowerStr (s : String) : String :=
  String.mk (s.data.map Char.toLower)

/-- Python `s.startswith(pre)`. -/
def startsWithStr (s pre : String) : Bool :=
  leadsWith pre.data s.data

/-- Record of `@dataclass User` (meal times pre-parsed from `"HH:MM"` into
hour/minute pairs; the timezone name replaced by its offset in seconds). -/
structure User where
  user_id : String
  diet_pref : String
  allergies : List String
  age : Int
  gender : String
  city : String
  tz_off : Int
  usual_meal_times : List (String × Int × Int)
  conditions : List String
deriving DecidableEq, Repr

/-- Record of `@dataclass Food`. -/
structure Food where
  food_id : String
  name : String
  is_veg : Bool
  ingredients : List String
  tags : List String
  nutrients : List (String × ℚ)
deriving DecidableEq, Repr

/-- Row of the `condition_nutrients` table. -/
structure CondNutrient where
  condition : String
  nutrient : String
  weight : ℚ
deriving DecidableEq, Repr

/-- Row of the `user_activity` log. -/
structure ActivityEvent where
  user_id : String
  ts : Int
  event : String
  food_id : Option String
deriving DecidableEq, Repr

/-- Message template (only its `text` field is read by the core). -/
structure Template where
  text : String
deriving DecidableEq, Repr

/-- Scoring weights set in `NutritionAgent.__init__`. -/
structure Weights where
  w1 : ℚ
  w2 : ℚ
  w3 : ℚ
  w4 : ℚ
  w5 : ℚ
deriving DecidableEq, Repr

/-- Weights as initialised in `__init__`. -/
def initWeights : Weights :=
  { w1 := 4/10, w2 := 3/10, w3 := 2/10, w4 := 1/10, w5 := 8/10 }

/-- Entry appended to `self.recent_notifications[user_id]` (the stored
iso-format timestamp is kept as the instant's UTC seconds). -/
structure RecentNotif where
  food_id : String
  timestamp : Int
  trig : String
deriving DecidableEq, Repr

/-- State of a `NutritionAgent` instance after `load_data`. -/
structure Agent where
  users : List (String × User)
  foods : List (String × Food)
  condition_nutrients : List CondNutrient
  activity_logs : List ActivityEvent
  message_templates : String → Template
  facts : List (String × String)
  recent_notifications : List (String × List RecentNotif)
  weights : Weights
  viralDraw : Bool

/-- RecencyRecord of one user (`self.recent_notifications.get(uid, [])`). -/
def recordOf (a : Agent) (uid : String) : List RecentNotif :=
  lookupD a.recent_notifications uid []

/-- Nutrient-name keys consumed by `uid` in `consumed` events at or after
`since` (the accumulation loops of `_should_remind_condition`). -/
def consumedNutrientKeys (a : Agent) (uid : String) (since : Int) : List String :=
  ((a.activity_logs.filter
      (fun e => e.user_id == uid && e.event == "consumed" && decide (since ≤ e.ts))).foldl
    (fun acc e =>
      match e.food_id with
      | some fid =>
        match lookupA a.foods fid with
        | some f => acc ++ f.nutrients.map Prod.fst
        | none => acc
      | none => acc) [])

/-- Method `_should_remind_condition`: true when no nutrient linked to the
condition was consumed in the trailing 7 days. -/
def _should_remind_condition (a : Agent) (uid : String) (condition : String) (now : DT) : Bool :=
  let relevant := (a.condition_nutrients.filter (fun r => r.condition == condition)).map
    (fun r => r.nutrient)
  let consumed := consumedNutrientKeys a uid (now.utc - 7 * 86400)
  relevant.all (fun n => !(consumed.contains n))

/-- Python `condition.lower().replace(" ", "_")`. -/
def slugify (c : String) : String :=
  String.mk ((lowerStr c).data.map (fun ch => if ch = ' ' then '_' else ch))

/-- Method `resolve_triggers` (module-level in the source file, written as a
method of the agent).  The `random.random() < 0.1` draw is `a.viralDraw`. -/
def resolve_triggers (a : Agent) (user : User) (now : DT) : List String :=
  let currentHour := localHour user.tz_off now
  if 22 ≤ currentHour ∨ currentHour ≤ 7 then []
  else
    let localNow := now.utc + user.tz_off
    let dayStart := localNow - localNow % 86400
    let preMeal := user.usual_meal_times.filterMap (fun m =>
      let mealWithDate := dayStart + m.2.1 * 3600 + m.2.2 * 60 + localNow % 60
      let preMealTime := mealWithDate - 30 * 60
      if (localNow - preMealTime).natAbs ≤ 300 then some ("pre_" ++ m.1) else none)
    let postActivity :=
      if a.activity_logs.any (fun e =>
          e.user_id == user.user_id && e.event == "worked_out" &&
          decide (now.utc - 2 * 3600 ≤ e.ts)) then
        ["post_activity"]
      else []
    let condTriggers := user.conditions.filterMap (fun c =>
      if _should_remind_condition a user.user_id c now then
        some ("condition_" ++ slugify c)
      else none)
    let socialViral :=
      if (17 ≤ currentHour ∧ currentHour ≤ 20) ∧ a.viralDraw then ["social_viral"] else []
    preMeal ++ postActivity ++ condTriggers ++ socialViral

/-- Method `_check_diet_compatibility`. -/
def _check_diet_compatibility (user : User) (food : Food) : Bool :=
  if user.diet_pref = "veg" then food.is_veg
  else if user.diet_pref = "nonveg" then true
  else if user.diet_pref = "egg" then food.is_veg || food.ingredients.contains "eggs"
  else true

/-- Method `_has_allergy_risk`: non-empty intersection of the food's
tags-plus-ingredients with the user's allergy set. -/
def _has_allergy_risk (user : User) (food : Food) : Bool :=
  (food.tags ++ food.ingredients).any (fun t => user.allergies.contains t)

/-- Method `_is_relevant_to_conditions`. -/
def _is_relevant_to_conditions (a : Agent) (user : User) (food : Food) : Bool :=
  user.conditions.any (fun condition =>
    let required := (a.condition_nutrients.filter (fun r => r.condition == condition)).map
      (fun r => r.nutrient)
    (food.nutrients.map Prod.fst).any (fun n => required.contains n))

/-- Method `_is_available` (mock: always true). -/
def _is_available (_user : User) (_food : Food) (_now : DT) : Bool :=
  true

/-- Method `generate_candidates`: the catalog filtered by the four hard
constraints, in catalog iteration order. -/
def generate_candidates (a : Agent) (user : User) (now : DT) (_trigger : String) : List Food :=
  (a.foods.map Prod.snd).filter (fun food =>
    _check_diet_compatibility user food &&
    !(_has_allergy_risk user food) &&
    _is_relevant_to_conditions a user food &&
    _is_available user food now)

/-- Per-nutrient cell of the condition-weight vector in
`_calculate_condition_match`: the pandas `['weight'].mean()` over the rows
of `rows` with this nutrient, with a `NaN` mean (empty selection) replaced
by `0.0`. -/
def meanWeight (rows : List CondNutrient) (n : String) : ℚ :=
  let ws := (rows.filter (fun r => r.nutrient == n)).map (fun r => r.weight)
  if ws.length = 0 then 0 else ws.sum / (ws.length : ℚ)

/-- Dot product of `np.dot` on equal-length vectors. -/
def dotQ (v1 v2 : List ℚ) : ℚ :=
  (List.zipWith (· * ·) v1 v2).sum

/-- Sum of squares; `np.linalg.norm v = Real.sqrt (sumSq v)`. -/
def sumSq (v : List ℚ) : ℚ :=
  (v.map (fun x => x * x)).sum

/-- Method `_cosine_similarity`.  The source's guard `norm1 == 0 or
norm2 == 0` is the exact-arithmetic test `sumSq v = 0` (a Euclidean norm
vanishes exactly when the sum of squares does). -/
noncomputable def _cosine_similarity (v1 v2 : List ℚ) : ℝ :=
  if sumSq v1 = 0 ∨ sumSq v2 = 0 then 0
  else (dotQ v1 v2 : ℝ) / (Real.sqrt (sumSq v1 : ℝ) * Real.sqrt (sumSq v2 : ℝ))

/-- Method `_calculate_condition_match`.  `list(set(...))` enumerates the
distinct nutrients in an arbitrary order; `eraseDups` (first occurrences)
stands in for it, and cosine similarity does not depend on the common
indexing order of the two vectors. -/
noncomputable def _calculate_condition_match (a : Agent) (food : Food) (user : User) : ℝ :=
  let rows := a.condition_nutrients.filter (fun r => user.conditions.contains r.condition)
  if rows.length = 0 then 0
  else
    let all_nutrients := (rows.map (fun r => r.nutrient)).eraseDups
    let food_vector := all_nutrients.map (fun n => lookupD food.nutrients n 0)
    let condition_vector := all_nutrients.map (fun n => meanWeight rows n)
    _cosine_similarity food_vector condition_vector

/-- Summed nutrient amounts of `consumed` events of `uid` at or after
`since` (the `consumed_nutrients` accumulation of
`_calculate_nutrient_gap_fit`). -/
def consumedAmounts (a : Agent) (uid : String) (since : Int) : List (String × ℚ) :=
  (a.activity_logs.filter
      (fun e => e.user_id == uid && e.event == "consumed" && decide (since ≤ e.ts))).foldl
    (fun acc e =>
      match e.food_id with
      | some fid =>
        match lookupA a.foods fid with
        | some f => f.nutrients.foldl (fun acc2 p => setA p.1 (lookupD acc2 p.1 0 + p.2) acc2) acc
        | none => acc
      | none => acc) []

/-- Per-nutrient target weights of `_calculate_nutrient_gap_fit`: the
running `max(target.get(n, 0), w)` over the rows of each of the user's
conditions, in profile order. -/
def gapTargets (links : List CondNutrient) (conditions : List String) : List (String × ℚ) :=
  conditions.foldl (fun acc condition =>
    (links.filter (fun r => r.condition == condition)).foldl
      (fun acc2 r => setA r.nutrient (max (lookupD acc2 r.nutrient 0) r.weight) acc2) acc) []

/-- Method `_calculate_nutrient_gap_fit`. -/
def _calculate_nutrient_gap_fit (a : Agent) (food : Food) (user : User) (now : DT) : ℚ :=
  let consumed := consumedAmounts a user.user_id (now.utc - 86400)
  let targets := gapTargets a.condition_nutrients user.conditions
  let acc := targets.foldl (fun (p : ℚ × Nat) t =>
    let consumedAmt := lookupD consumed t.1 0
    let food_provides := lookupD food.nutrients t.1 0
    if consumedAmt < t.2 then
      let gap_size := t.2 - consumedAmt
      let coverage := if 0 < gap_size then min (food_provides / gap_size) 1 else 0
      (p.1 + coverage, p.2 + 1)
    else p) (0, 0)
  if 0 < acc.2 then acc.1 / (acc.2 : ℚ) else 0

/-- Method `_calculate_recency_novelty`. -/
def _calculate_recency_novelty (a : Agent) (food : Food) (user : User) (now : DT) : ℚ :=
  let user_recent := recordOf a user.user_id
  let week_ago := now.utc - 7 * 86400
  let recent_food_ids :=
    (user_recent.filter (fun r => decide (week_ago ≤ r.timestamp))).map (fun r => r.food_id)
  if recent_food_ids.contains food.food_id then 1/10 else 9/10

/-- Component breakdown returned by `_calculate_scores`. -/
structure Scores where
  condMatch : ℝ
  nutrientGapFit : ℝ
  availabilityBoost : ℝ
  recencyNovelty : ℝ
  allergyRisk : ℝ

/-- Method `_calculate_scores`. -/
noncomputable def _calculate_scores (a : Agent) (food : Food) (user : User) (now : DT)
    (_trigger : String) : Scores :=
  { condMatch := _calculate_condition_match a food user
    nutrientGapFit := (_calculate_nutrient_gap_fit a food user now : ℝ)
    availabilityBoost := 1
    recencyNovelty := (_calculate_recency_novelty a food user now : ℝ)
    allergyRisk := 0 }

/-- Weighted total of `rank_candidates`. -/
noncomputable def totalScore (w : Weights) (s : Scores) : ℝ :=
  (w.w1 : ℝ) * s.condMatch + (w.w2 : ℝ) * s.nutrientGapFit +
  (w.w3 : ℝ) * s.availabilityBoost + (w.w4 : ℝ) * s.recencyNovelty -
  (w.w5 : ℝ) * s.allergyRisk

/-- Comparison used to model the stable descending sort
`scored_candidates.sort(key=lambda x: x[1], reverse=True)`. -/
def rankLE (x y : Food × ℝ × Scores) : Prop :=
  y.2.1 ≤ x.2.1

noncomputable instance : DecidableRel rankLE :=
  fun x y => inferInstanceAs (Decidable (y.2.1 ≤ x.2.1))

/-- Method `rank_candidates`: score each candidate, then a stable sort by
total score descending (Python's `list.sort` is stable, and with
`reverse=True` equal keys keep their original order). -/
noncomputable def rank_candidates (a : Agent) (candidates : List Food) (user : User) (now : DT)
    (trigger : String) : List (Food × ℝ × Scores) :=
  List.insertionSort rankLE (candidates.map (fun food =>
    (food, totalScore a.weights (_calculate_scores a food user now trigger),
      _calculate_scores a food user now trigger)))

/-- Reasons block of a `NotificationCandidate`. -/
structure Reasons where
  condition : String
  key_nutrients : List String
  why_now : String
  scores : Scores

/-- Call-to-action dictionary. -/
structure Cta where
  label : String
  deep_link : String
deriving DecidableEq, Repr

/-- Record of `@dataclass NotificationCandidate`. -/
structure NotificationCandidate where
  food : Food
  score : ℝ
  reasons : Reasons
  message : String
  cta : Cta

/-- Method `_get_primary_condition_and_nutrients`: the user's condition
with the strictly highest `Σ weight·amount` over nutrients present in the
food with positive amount, together with the contributing nutrients. -/
def _get_primary_condition_and_nutrients (a : Agent) (food : Food) (user : User) :
    String × List String :=
  let best := user.conditions.foldl (fun (b : String × ℚ × List String) condition =>
    let rows := a.condition_nutrients.filter (fun r => r.condition == condition)
    let sc := rows.foldl (fun (p : ℚ × List String) r =>
      match lookupA food.nutrients r.nutrient with
      | some amt => if 0 < amt then (p.1 + r.weight * amt, p.2 ++ [r.nutrient]) else p
      | none => p) (0, [])
    if b.2.1 < sc.1 then (condition, sc.1, sc.2) else b) ("", 0, [])
  (best.1, best.2.2)

/-- Lookup table `nutrient_names` of `_generate_benefit_text`. -/
def nutrientNames : List (String × String) :=
  [("vitamin_e", "Vitamin E"), ("zinc", "Zinc"), ("vitamin_c", "Vitamin C"),
   ("protein", "protein"), ("iron", "iron"), ("fiber", "fiber"),
   ("omega3", "Omega-3"), ("probiotics", "probiotics"), ("magnesium", "magnesium")]

/-- Method `_generate_benefit_text`. -/
def _generate_benefit_text (nutrients : List String) (condition : String) : String :=
  if nutrients.isEmpty then "supports " ++ lowerStr condition
  else
    let friendly := (nutrients.take 2).map (fun n => lookupD nutrientNames n n)
    match friendly with
    | [x] => x ++ " boost"
    | [x, y] => x ++ " + " ++ y ++ " boost"
    | _ => "nutrient boost"

/-- Table `template_map` of `_select_template`. -/
def templateMap : List (String × String) :=
  [("pre_breakfast", "pre_meal_basic"), ("pre_lunch", "pre_meal_basic"),
   ("pre_dinner", "pre_meal_basic"), ("post_activity", "post_workout"),
   ("social_viral", "science_fact")]

/-- Method `_select_template`. -/
def _select_template (trigger : String) : String :=
  if startsWithStr trigger "condition_" then "condition_reminder"
  else lookupD templateMap trigger "pre_meal_basic"

/-- Table `fact_map` of `_get_why_now_fact`. -/
def factMap : List (String × String) :=
  [("pre_breakfast", "morning_boost"), ("pre_lunch", "pre_meal"),
   ("pre_dinner", "pre_meal"), ("post_activity", "post_activity"),
   ("social_viral", "omega3_benefits")]

/-- Method `_get_why_now_fact`.  The `condition_*` branch of the source
returns the literal key string `"evening_repair"` itself. -/
def _get_why_now_fact (a : Agent) (trigger : String) : String :=
  if startsWithStr trigger "condition_" then "evening_repair"
  else
    let fact_key := lookupD factMap trigger "pre_meal"
    lookupD a.facts fact_key "Science-backed nutrition timing matters"

/-- Method `_generate_cta`. -/
def _generate_cta (food : Food) (condition : String) : Cta :=
  { label := "Learn more"
    deep_link := "app://explore?food=" ++ food.food_id ++ "&condition=" ++
      replaceAll condition " " "%20" }

/-- Placeholder-substitution chain of `_fill_template`: the five sequential
`text.replace` calls, in the insertion order of the `replacements` dict. -/
def _substituted (template : Template) (food : Food) (benefit condition why_now : String)
    (_cta : Cta) : String :=
  let t1 := replaceAll template.text "\x7bfood\x7d" food.name
  let t2 := replaceAll t1 "\x7bbenefit\x7d" benefit
  let t3 := replaceAll t2 "\x7bcondition\x7d" (lowerStr condition)
  let t4 := replaceAll t3 "\x7bwhy_now\x7d" why_now
  replaceAll t4 "\x7bcta\x7d" ("Try " ++ lowerStr food.name)

/-- Method `_fill_template`: substitution followed by the 160-character
ceiling (`text[:157] + "..."` when exceeded). -/
def _fill_template (template : Template) (food : Food) (benefit condition why_now : String)
    (cta : Cta) : String :=
  let text := _substituted template food benefit condition why_now cta
  if 160 < text.length then String.mk (text.data.take 157) ++ "..." else text

/-- Method `compose_messages`. -/
noncomputable def compose_messages (a : Agent) (ranked : List (Food × ℝ × Scores))
    (user : User) (trigger : String) (top_n : Nat) : List NotificationCandidate :=
  (ranked.take top_n).map (fun rc =>
    let pk := _get_primary_condition_and_nutrients a rc.1 user
    let benefit := _generate_benefit_text pk.2 pk.1
    let template := a.message_templates (_select_template trigger)
    let why_now := _get_why_now_fact a trigger
    let cta := _generate_cta rc.1 pk.1
    let message := _fill_template template rc.1 benefit pk.1 why_now cta
    { food := rc.1
      score := rc.2.1
      reasons :=
        { condition := pk.1, key_nutrients := pk.2, why_now := why_now, scores := rc.2.2 }
      message := message
      cta := cta })

/-- Python `round(x, 3)` modelled as exact rounding to 3 decimals. -/
noncomputable def round3 (x : ℝ) : ℝ :=
  ((⌊x * 1000 + 1/2⌋ : Int) : ℝ) / 1000

/-- Item dictionary of an output bundle of `generate_notifications`. -/
structure Item where
  food_id : String
  name : String
  score : ℝ
  reasons_condition : String
  reasons_key_nutrients : List String
  reasons_why_now : String
  message : String
  cta : Cta
  breakdown_CondMatch : ℝ
  breakdown_NutrientGapFit : ℝ
  breakdown_AvailabilityBoost : ℝ
  breakdown_RecencyNovelty : ℝ
  breakdown_AllergyRisk : ℝ
  weights : Weights

/-- Output bundle (`notification_dict`) of `generate_notifications`. -/
structure Bundle where
  user_id : String
  trigger : String
  generated_at : Int
  items : List Item

/-- Item construction inside the trigger loop of `generate_notifications`. -/
noncomputable def mkItem (a : Agent) (n : NotificationCandidate) : Item :=
  { food_id := n.food.food_id
    name := n.food.name
    score := round3 n.score
    reasons_condition := n.reasons.condition
    reasons_key_nutrients := n.reasons.key_nutrients
    reasons_why_now := n.reasons.why_now
    message := n.message
    cta := n.cta
    breakdown_CondMatch := round3 n.reasons.scores.condMatch
    breakdown_NutrientGapFit := round3 n.reasons.scores.nutrientGapFit
    breakdown_AvailabilityBoost := round3 n.reasons.scores.availabilityBoost
    breakdown_RecencyNovelty := round3 n.reasons.scores.recencyNovelty
    breakdown_AllergyRisk := round3 n.reasons.scores.allergyRisk
    weights := a.weights }

/-- Method `_check_rate_limits`: daily cap of 2 since midnight of `now`'s
date, then a minimum 3-hour gap from the last recorded entry. -/
def _check_rate_limits (a : Agent) (uid : String) (now : DT) : Bool :=
  let user_recent := recordOf a uid
  let today_start := midnightOf now
  let today_notifications := user_recent.filter (fun n => decide (today_start ≤ n.timestamp))
  if 2 ≤ today_notifications.length then false
  else
    match user_recent.getLast? with
    | some last => if now.utc - last.timestamp < 10800 then false else true
    | none => true

/-- Method `_update_recent_notifications`: append one entry for the emitted
food and keep only the most recent 20 (`[-20:]`). -/
def _update_recent_notifications (a : Agent) (uid : String) (n : NotificationCandidate)
    (now : DT) : Agent :=
  { a with
    recent_notifications :=
      setA uid
        (lastN 20 (recordOf a uid ++ [RecentNotif.mk n.food.food_id now.utc "recent"]))
        a.recent_notifications }

/-- Body of the per-trigger loop of `generate_notifications`: filter, rank,
compose with `top_n = 1`, and on success append a bundle and record the
emission. -/
noncomputable def processTrigger (user : User) (uid : String) (now : DT)
    (acc : List Bundle × Agent) (trigger : String) : List Bundle × Agent :=
  if (generate_candidates acc.2 user now trigger).isEmpty then acc
  else
    match compose_messages acc.2
        (rank_candidates acc.2 (generate_candidates acc.2 user now trigger) user now trigger)
        user trigger 1 with
    | [] => acc
    | n0 :: tail =>
      (acc.1 ++
        [{ user_id := uid
           trigger := trigger
           generated_at := now.utc
           items := (n0 :: tail).map (fun n => mkItem acc.2 n) }],
       _update_recent_notifications acc.2 uid n0 now)

/-- Method `generate_notifications`: the orchestrator entry point.  The
result pairs the returned bundle list with the post-call agent state (the
only mutation of the call is the recency map). -/
noncomputable def generate_notifications (a : Agent) (uid : String) (now : DT) :
    List Bundle × Agent :=
  match lookupA a.users uid with
  | none => ([], a)
  | some user =>
    if !(_check_rate_limits a uid now) then ([], a)
    else if (resolve_triggers a user now).isEmpty then ([], a)
    else (resolve_triggers a user now).foldl (processTrigger user uid now) ([], a)

/-- Sample catalog food: vegetarian, iron-rich, no allergen overlap with
`sampleUser`. -/
def sampleFood : Food :=
  { food_id := "f1", name := "Spinach Salad", is_veg := true,
    ingredients := ["spinach"], tags := ["greens"], nutrients := [("iron", 5)] }

/-- Sample catalog food carrying the `"nuts"` allergen tag. -/
def nutFood : Food :=
  { food_id := "f2", name := "Peanut Bar", is_veg := true,
    ingredients := ["peanuts"], tags := ["nuts"], nutrients := [("iron", 3)] }

/-- Sample user: non-vegetarian, allergic to nuts, one condition, two meal
times 5 minutes apart (so two pre-meal triggers can fire together). -/
def sampleUser : User :=
  { user_id := "u1", diet_pref := "nonveg", allergies := ["nuts"], age := 30,
    gender := "F", city := "Mumbai", tz_off := 0,
    usual_meal_times := [("lunch", 12, 30), ("dinner", 12, 35)],
    conditions := ["Anemia"] }

/-- Sample condition-nutrient link row. -/
def sampleLink : CondNutrient :=
  { condition := "Anemia", nutrient := "iron", weight := 8/10 }

/-- Sample message template with all placeholders. -/
def sampleTemplate : Template :=
  { text := "Time for \x7bfood\x7d - \x7bbenefit\x7d! \x7bwhy_now\x7d \x7bcta\x7d" }

/-- Message template whose text alone exceeds 160 characters. -/
def longTemplate : Template :=
  { text := "This is a deliberately overlong notification template text that keeps going well past the one hundred and sixty character ceiling imposed on every composed message by the agent." }

/-- Sample call-to-action value. -/
def sampleCta : Cta :=
  { label := "Learn more", deep_link := "app://explore?food=f1&condition=Anemia" }

/-- Recency entry recorded 4 hours before `now10`, on the same local day. -/
def prior10 : RecentNotif :=
  { food_id := "f0", timestamp := 86428920, trig := "recent" }

/-- Concrete instant: 12:02:00 local (UTC) on day 1000 of the epoch. -/
def now10 : DT :=
  { utc := 86443320, off := 0 }

/-- Concrete agent state: one user, two foods (one allergen-tagged), one
link row, one prior recorded notification 4 hours old. -/
def A10 : Agent :=
  { users := [("u1", sampleUser)]
    foods := [("f1", sampleFood), ("f2", nutFood)]
    condition_nutrients := [sampleLink]
    activity_logs := []
    message_templates := fun _ => sampleTemplate
    facts := [("pre_meal", "Nutrition timing matters.")]
    recent_notifications := [("u1", [prior10])]
    weights := initWeights
    viralDraw := false }

/-- Variant of `A10` with an empty recency map. -/
def A9 : Agent :=
  { A10 with recent_notifications := [] }

/-- Variant of `A10` with two notifications already recorded on the local
day of `now10`. -/
def A2 : Agent :=
  { A10 with recent_notifications :=
      [("u1", [{ food_id := "f0", timestamp := 86408000, trig := "recent" },
               { food_id := "f1", timestamp := 86415200, trig := "recent" }])] }

/-- Variant of `A10` whose single recorded notification is 2 hours old. -/
def A3 : Agent :=
  { A10 with recent_notifications :=
      [("u1", [{ food_id := "f0", timestamp := 86436120, trig := "recent" }])] }

theorem lookupA_nil {α : Type} (k : String) : lookupA ([] : List (String × α)) k = none :=
  rfl

theorem lookupA_cons {α : Type} (k' : String) (v' : α) (t : List (String × α)) (k : String) :
    lookupA ((k', v') :: t) k = if k' = k then some v' else lookupA t k := by
  by_cases h : k' = k
  · unfold lookupA
    rw [List.find?_cons_of_pos _ (by simp [h])]
    simp [h]
  · unfold lookupA
    rw [List.find?_cons_of_neg _ (by simp [h])]
    simp [h]

theorem lookupA_setA_self {α : Type} (k : String) (v : α) (l : List (String × α)) :
    lookupA (setA k v l) k = some v := by
  induction l with
  | nil => simp [setA, lookupA_cons]
  | cons p t ih =>
    obtain ⟨k1, v1⟩ := p
    by_cases h : k1 = k
    · simp [setA, h, lookupA_cons]
    · simp [setA, h, lookupA_cons, ih]

theorem lookupA_setA_ne {α : Type} (k k' : String) (v : α) (l : List (String × α))
    (h : k' ≠ k) : lookupA (setA k v l) k' = lookupA l k' := by
  induction l with
  | nil => simp [setA, lookupA_cons, lookupA_nil, Ne.symm h]
  | cons p t ih =>
    obtain ⟨k1, v1⟩ := p
    by_cases hp : k1 = k
    · subst hp
      simp [setA, lookupA_cons, Ne.symm h]
    · simp [setA, hp, lookupA_cons, ih]

theorem lookupD_setA {α : Type} (k n : String) (v d : α) (l : List (String × α)) :
    lookupD (setA k v l) n d = if k = n then v else lookupD l n d := by
  by_cases h : k = n
  · subst h; simp [lookupD, lookupA_setA_self]
  · simp [lookupD, h, lookupA_setA_ne k n v l (Ne.symm h)]

theorem lastN_length_le {α : Type} (n : Nat) (l : List α) : (lastN n l).length ≤ n := by
  simp only [lastN, List.length_drop]
  omega

theorem lastN_of_length_le {α : Type} (n : Nat) (l : List α) (h : l.length ≤ n) :
    lastN n l = l := by
  simp only [lastN]
  rw [Nat.sub_eq_zero_of_le h, List.drop_zero]

theorem lastN_lastN_append {α : Type} (n : Nat) (l m : List α) :
    lastN n (lastN n l ++ m) = lastN n (l ++ m) := by
  simp only [lastN, List.length_append, List.length_drop,
    List.drop_append_eq_append_drop, List.drop_drop]
  congr 1
  · congr 1
    omega
  · congr 1
    omega

/-- Claim C2: at least two RecencyRecord entries timestamped at or after
midnight of `now`'s date make `generate_notifications` reject the whole
call: it returns the empty list and leaves the agent state untouched. -/
theorem claim_C2 (a : Agent) (uid : String) (now : DT)
    (h : 2 ≤ ((recordOf a uid).filter
        (fun e => decide (midnightOf now ≤ e.timestamp))).length) :
    generate_notifications a uid now = ([], a) := by
  have hc : _check_rate_limits a uid now = false := by
    unfold _check_rate_limits
    simp only [if_pos h]
  unfold generate_notifications
  cases hu : lookupA a.users uid with
  | none => rfl
  | some user => simp [hc]

theorem claim_C2_witness :
    (2 ≤ ((recordOf A2 "u1").filter
        (fun e => decide (midnightOf now10 ≤ e.timestamp))).length)
    ∧ generate_notifications A2 "u1" now10 = ([], A2) :=
  ⟨by decide, claim_C2 A2 "u1" now10 (by decide)⟩

/-- Claim C3: with a non-empty RecencyRecord whose most recent entry is
strictly less than 3 hours old, `generate_notifications` returns the empty
list with the state untouched; with a gap of 3 hours or more, the
rate-limit check is not rejected by the minimum-gap rule (it reduces to
the daily-cap test alone). -/
theorem claim_C3 (a : Agent) (uid : String) (now : DT) (last : RecentNotif)
    (hl : (recordOf a uid).getLast? = some last) :
    (now.utc - last.timestamp < 10800 → generate_notifications a uid now = ([], a))
    ∧ (10800 ≤ now.utc - last.timestamp →
        _check_rate_limits a uid now
          = decide (((recordOf a uid).filter
              (fun e => decide (midnightOf now ≤ e.timestamp))).length < 2)) := by
  constructor
  · intro hgap
    have hc : _check_rate_limits a uid now = false := by
      unfold _check_rate_limits
      by_cases hd : 2 ≤ ((recordOf a uid).filter
          (fun e => decide (midnightOf now ≤ e.timestamp))).length
      · simp only [if_pos hd]
      · simp only [if_neg hd, hl, if_pos hgap]
    unfold generate_notifications
    cases hu : lookupA a.users uid with
    | none => rfl
    | some user => simp [hc]
  · intro hgap
    have hng : ¬(now.utc - last.timestamp < 10800) := not_lt.mpr hgap
    unfold _check_rate_limits
    by_cases hd : 2 ≤ ((recordOf a uid).filter
        (fun e => decide (midnightOf now ≤ e.timestamp))).length
    · simp only [if_pos hd]
      simp [Nat.not_lt.mpr hd]
    · simp only [if_neg hd, hl, if_neg hng]
      simp [Nat.lt_of_not_le hd]

theorem claim_C3_witness :
    ((recordOf A3 "u1").getLast?
        = some { food_id := "f0", timestamp := 86436120, trig := "recent" })
    ∧ (now10.utc - 86436120 < 10800)
    ∧ generate_notifications A3 "u1" now10 = ([], A3) :=
  ⟨by decide, by decide,
    (claim_C3 A3 "u1" now10 { food_id := "f0", timestamp := 86436120, trig := "recent" }
      (by decide)).1 (by decide)⟩

/-- Claim C4: whenever the user's local hour is at least 22 or at most 7,
`resolve_triggers` short-circuits and returns the empty trigger set,
whatever the meal schedule, activity log, conditions or viral draw. -/
theorem claim_C4 (a : Agent) (user : User) (now : DT)
    (h : 22 ≤ localHour user.tz_off now ∨ localHour user.tz_off now ≤ 7) :
    resolve_triggers a user now = [] := by
  unfold resolve_triggers
  simp only [if_pos h]

theorem claim_C4_witness :
    (22 ≤ localHour sampleUser.tz_off ⟨86400000 + 23 * 3600, 0⟩
      ∨ localHour sampleUser.tz_off ⟨86400000 + 23 * 3600, 0⟩ ≤ 7)
    ∧ resolve_triggers A10 sampleUser ⟨86400000 + 23 * 3600, 0⟩ = [] :=
  ⟨by decide, claim_C4 A10 sampleUser ⟨86400000 + 23 * 3600, 0⟩ (by decide)⟩

/-- Claim C5: the diet-compatibility check passes a food for a vegetarian
user exactly when the food is vegetarian, for an eggetarian user exactly
when it is vegetarian or lists eggs among its ingredients, and always for
a non-vegetarian user; a food failing the check is excluded from the
candidate list. -/
theorem claim_C5 (a : Agent) (user : User) (food : Food) (now : DT) (trigger : String) :
    (user.diet_pref = "veg" → _check_diet_compatibility user food = food.is_veg)
    ∧ (user.diet_pref = "egg" →
        _check_diet_compatibility user food
          = (food.is_veg || food.ingredients.contains "eggs"))
    ∧ (user.diet_pref = "nonveg" → _check_diet_compatibility user food = true)
    ∧ (_check_diet_compatibility user food = false →
        food ∉ generate_candidates a user now trigger) := by
  refine ⟨?_, ?_, ?_, ?_⟩
  · intro h
    unfold _check_diet_compatibility
    simp [h]
  · intro h
    unfold _check_diet_compatibility
    simp [h]
  · intro h
    unfold _check_diet_compatibility
    simp [h]
  · intro hb hmem
    unfold generate_candidates at hmem
    rw [List.mem_filter] at hmem
    obtain ⟨-, hp⟩ := hmem
    simp only [Bool.and_eq_true] at hp
    rw [hb] at hp
    exact Bool.false_ne_true hp.1.1.1

theorem claim_C5_witness :
    (sampleUser.diet_pref = "nonveg")
    ∧ (_check_diet_compatibility sampleUser nutFood = false →
        nutFood ∉ generate_candidates A10 sampleUser now10 "pre_lunch")
    ∧ _check_diet_compatibility sampleUser nutFood = true :=
  ⟨rfl, (claim_C5 A10 sampleUser nutFood now10 "pre_lunch").2.2.2,
    (claim_C5 A10 sampleUser nutFood now10 "pre_lunch").2.2.1 rfl⟩

/-- Claim C6: a filled message never exceeds 160 characters, and whenever
the placeholder-substituted text is longer than 160 characters the result
is exactly its first 157 characters followed by the three-character
ellipsis. -/
theorem claim_C6 (template : Template) (food : Food) (benefit condition why_now : String)
    (cta : Cta) :
    (_fill_template template food benefit condition why_now cta).length ≤ 160
    ∧ (160 < (_substituted template food benefit condition why_now cta).length →
        _fill_template template food benefit condition why_now cta
          = String.mk ((_substituted template food benefit condition why_now cta).data.take 157)
            ++ "...") := by
  unfold _fill_template
  by_cases h : 160 < (_substituted template food benefit condition why_now cta).length
  · refine ⟨?_, fun _ => by rw [if_pos h]⟩
    rw [if_pos h]
    rw [String.length_append]
    have h157 : (String.mk
        ((_substituted template food benefit condition why_now cta).data.take 157)).length
        = 157 := by
      show ((_substituted template food benefit condition why_now cta).data.take 157).length
        = 157
      rw [List.length_take]
      have : 160 < (_substituted template food benefit condition why_now cta).data.length := h
      omega
    rw [h157]
    have hdots : ("..." : String).length = 3 := rfl
    omega
  · refine ⟨?_, fun h' => absurd h' h⟩
    rw [if_neg h]
    omega

theorem claim_C6_witness :
    (160 < (_substituted longTemplate sampleFood "iron boost" "Anemia"
        "Nutrition timing matters." sampleCta).length)
    ∧ _fill_template longTemplate sampleFood "iron boost" "Anemia"
        "Nutrition timing matters." sampleCta
      = String.mk ((_substituted longTemplate sampleFood "iron boost" "Anemia"
          "Nutrition timing matters." sampleCta).data.take 157) ++ "..." :=
  ⟨by decide,
    (claim_C6 longTemplate sampleFood "iron boost" "Anemia"
      "Nutrition timing matters." sampleCta).2 (by decide)⟩

theorem risk_true_of_inter (user : User) (food : Food)
    (ha : ∃ t ∈ food.tags ++ food.ingredients, t ∈ user.allergies) :
    _has_allergy_risk user food = true := by
  unfold _has_allergy_risk
  rw [List.any_eq_true]
  obtain ⟨t, ht, hmem⟩ := ha
  exact ⟨t, ht, by simp [hmem]⟩

theorem mem_candidates_no_risk (a : Agent) (user : User) (f : Food) (now : DT)
    (trigger : String) (hf : f ∈ generate_candidates a user now trigger) :
    f ∈ a.foods.map Prod.snd ∧ _has_allergy_risk user f = false := by
  unfold generate_candidates at hf
  rw [List.mem_filter] at hf
  obtain ⟨hmem, hp⟩ := hf
  simp only [Bool.and_eq_true, Bool.not_eq_true'] at hp
  exact ⟨hmem, hp.1.1.2⟩

theorem not_mem_candidates_of_risk (a : Agent) (user : User) (food : Food) (now : DT)
    (trigger : String) (hr : _has_allergy_risk user food = true) :
    food ∉ generate_candidates a user now trigger := by
  intro hmem
  have h := (mem_candidates_no_risk a user food now trigger hmem).2
  rw [hr] at h
  simp at h

/-- Safety invariant carried through the per-trigger loop of
`generate_notifications`: the catalog is never mutated and every item of
every accumulated bundle names a catalog food that passes the allergy
check for this user. -/
def SafeAcc (a0 : Agent) (user : User) (acc : List Bundle × Agent) : Prop :=
  acc.2.foods = a0.foods
  ∧ ∀ b ∈ acc.1, ∀ it ∈ b.items, ∃ f ∈ a0.foods.map Prod.snd,
      _has_allergy_risk user f = false ∧ it.food_id = f.food_id

theorem mem_compose_food (a : Agent) (ranked : List (Food × ℝ × Scores)) (user : User)
    (trigger : String) (top_n : Nat) (n : NotificationCandidate)
    (hn : n ∈ compose_messages a ranked user trigger top_n) :
    ∃ rc ∈ ranked, n.food = rc.1 := by
  unfold compose_messages at hn
  rw [List.mem_map] at hn
  obtain ⟨rc, hrc, hbuild⟩ := hn
  exact ⟨rc, List.mem_of_mem_take hrc, by rw [← hbuild]⟩

theorem mem_rank_food (a : Agent) (candidates : List Food) (user : User) (now : DT)
    (trigger : String) (rc : Food × ℝ × Scores)
    (hrc : rc ∈ rank_candidates a candidates user now trigger) :
    rc.1 ∈ candidates := by
  unfold rank_candidates at hrc
  rw [(List.perm_insertionSort rankLE _).mem_iff, List.mem_map] at hrc
  obtain ⟨f, hf, hef⟩ := hrc
  rw [← hef]
  exact hf

theorem update_foods (a : Agent) (uid : String) (n : NotificationCandidate) (now : DT) :
    (_update_recent_notifications a uid n now).foods = a.foods :=
  rfl

/-- One step of the per-trigger loop either leaves the accumulator alone or
appends exactly one bundle (composed for this trigger from this state) and
records its top item's food. -/
theorem processTrigger_cases (user : User) (uid : String) (now : DT)
    (acc : List Bundle × Agent) (trigger : String) :
    processTrigger user uid now acc trigger = acc
    ∨ ∃ (b : Bundle) (n0 : NotificationCandidate),
        b.items = (compose_messages acc.2
            (rank_candidates acc.2 (generate_candidates acc.2 user now trigger) user now trigger)
            user trigger 1).map (fun n => mkItem acc.2 n)
        ∧ n0 ∈ compose_messages acc.2
            (rank_candidates acc.2 (generate_candidates acc.2 user now trigger) user now trigger)
            user trigger 1
        ∧ processTrigger user uid now acc trigger
            = (acc.1 ++ [b], _update_recent_notifications acc.2 uid n0 now) := by
  unfold processTrigger
  by_cases hc : (generate_candidates acc.2 user now trigger).isEmpty = true
  · rw [if_pos hc]
    exact Or.inl rfl
  · rw [if_neg hc]
    rcases hn : compose_messages acc.2
        (rank_candidates acc.2 (generate_candidates acc.2 user now trigger) user now trigger)
        user trigger 1 with _ | ⟨n0, rest⟩
    · exact Or.inl rfl
    · right
      exact ⟨Bundle.mk uid trigger now.utc (List.map (fun n => mkItem acc.2 n) (n0 :: rest)),
        n0, rfl, List.mem_cons_self n0 rest, rfl⟩

theorem processTrigger_safe (a0 : Agent) (user : User) (uid : String) (now : DT)
    (acc : List Bundle × Agent) (trigger : String) (h : SafeAcc a0 user acc) :
    SafeAcc a0 user (processTrigger user uid now acc trigger) := by
  obtain ⟨hfoods, hitems⟩ := h
  rcases processTrigger_cases user uid now acc trigger with heq | ⟨b0, n0, hbitems, -, heq⟩
  · rw [heq]
    exact ⟨hfoods, hitems⟩
  · rw [heq]
    refine ⟨by rw [update_foods]; exact hfoods, ?_⟩
    intro b hb it hit
    rw [List.mem_append] at hb
    rcases hb with hb | hb
    · exact hitems b hb it hit
    · rw [List.mem_singleton] at hb
      subst hb
      rw [hbitems, List.mem_map] at hit
      obtain ⟨n, hnmem, hnit⟩ := hit
      obtain ⟨rc, hrcmem, hfood⟩ := mem_compose_food _ _ _ _ _ _ hnmem
      have hcand := mem_rank_food _ _ _ _ _ _ hrcmem
      obtain ⟨hfmem, hfrisk⟩ := mem_candidates_no_risk _ _ _ _ _ hcand
      refine ⟨rc.1, ?_, hfrisk, ?_⟩
      · rw [← hfoods]
        exact hfmem
      · rw [← hnit]
        show n.food.food_id = rc.1.food_id
        rw [hfood]

theorem foldl_safe (a0 : Agent) (user : User) (uid : String) (now : DT) :
    ∀ (l : List String) (acc : List Bundle × Agent), SafeAcc a0 user acc →
      SafeAcc a0 user (l.foldl (processTrigger user uid now) acc) := by
  intro l
  induction l with
  | nil => exact fun acc h => h
  | cons t ts ih =>
    intro acc h
    exact ih _ (processTrigger_safe a0 user uid now acc t h)

/-- Claim C1: a food whose tags-plus-ingredients intersect the user's
allergy set is excluded by the candidate filter at every timestamp and
trigger, and no bundle returned by `generate_notifications` for that user
ever contains that food. -/
theorem claim_C1 (a : Agent) (uid : String) (user : User) (food : Food)
    (hu : lookupA a.users uid = some user)
    (hwf : ∀ p ∈ a.foods, p.1 = p.2.food_id)
    (hnd : (a.foods.map Prod.fst).Nodup)
    (hf : (food.food_id, food) ∈ a.foods)
    (ha : ∃ t ∈ food.tags ++ food.ingredients, t ∈ user.allergies) :
    (∀ now trigger, food ∉ generate_candidates a user now trigger)
    ∧ ∀ now, ∀ b ∈ (generate_notifications a uid now).1, ∀ it ∈ b.items,
        it.food_id ≠ food.food_id := by
  have hr : _has_allergy_risk user food = true := risk_true_of_inter user food ha
  constructor
  · exact fun now trigger => not_mem_candidates_of_risk a user food now trigger hr
  · intro now b hb it hit heq
    have hsafe : ∀ b ∈ (generate_notifications a uid now).1, ∀ it ∈ b.items,
        ∃ f ∈ a.foods.map Prod.snd,
          _has_allergy_risk user f = false ∧ it.food_id = f.food_id := by
      unfold generate_notifications
      simp only [hu]
      by_cases hcrl : _check_rate_limits a uid now = true
      · simp only [hcrl, Bool.not_true, Bool.false_eq_true, if_false]
        by_cases hti : (resolve_triggers a user now).isEmpty = true
        · simp [hti]
        · simp only [hti, if_false]
          exact (foldl_safe a user uid now (resolve_triggers a user now) ([], a)
            ⟨rfl, by simp⟩).2
      · rw [Bool.not_eq_true] at hcrl
        simp [hcrl]
    obtain ⟨f, hfmem, hfrisk, hfid⟩ := hsafe b hb it hit
    rw [heq] at hfid
    rw [List.mem_map] at hfmem
    obtain ⟨p, hp, hpf⟩ := hfmem
    have hkey : p.1 = (food.food_id, food).1 := by
      rw [hwf p hp, hpf, ← hfid]
    have hpe := List.inj_on_of_nodup_map hnd hp hf hkey
    rw [hpe] at hpf
    rw [← hpf] at hfrisk
    rw [hr] at hfrisk
    simp at hfrisk

theorem claim_C1_witness :
    (lookupA A10.users "u1" = some sampleUser)
    ∧ ((nutFood.food_id, nutFood) ∈ A10.foods)
    ∧ (∃ t ∈ nutFood.tags ++ nutFood.ingredients, t ∈ sampleUser.allergies)
    ∧ nutFood ∉ generate_candidates A10 sampleUser now10 "pre_lunch" :=
  ⟨by decide, by decide, by decide,
    (claim_C1 A10 "u1" sampleUser nutFood (by decide) (by decide) (by decide)
      (by decide) (by decide)).1 now10 "pre_lunch"⟩

theorem gap_inner_mono (n : String) (rows : List CondNutrient) :
    ∀ acc : List (String × ℚ),
      lookupD acc n 0 ≤ lookupD (rows.foldl (fun acc2 r =>
        setA r.nutrient (max (lookupD acc2 r.nutrient 0) r.weight) acc2) acc) n 0 := by
  induction rows with
  | nil => intro acc; exact le_refl _
  | cons r t ih =>
    intro acc
    refine le_trans ?_ (ih (setA r.nutrient (max (lookupD acc r.nutrient 0) r.weight) acc))
    rw [lookupD_setA]
    by_cases h : r.nutrient = n
    · rw [if_pos h, ← h]
      exact le_max_left _ _
    · rw [if_neg h]

theorem gap_inner_ub (n : String) (rows : List CondNutrient) :
    ∀ acc : List (String × ℚ), ∀ r ∈ rows, r.nutrient = n →
      r.weight ≤ lookupD (rows.foldl (fun acc2 r =>
        setA r.nutrient (max (lookupD acc2 r.nutrient 0) r.weight) acc2) acc) n 0 := by
  induction rows with
  | nil => intro acc r hr; exact absurd hr (List.not_mem_nil r)
  | cons r0 t ih =>
    intro acc r hr hn
    rcases List.mem_cons.mp hr with hr | hr
    · subst hr
      refine le_trans ?_ (gap_inner_mono n t _)
      rw [lookupD_setA, if_pos hn]
      exact le_max_right _ _
    · exact ih _ r hr hn

theorem gap_inner_attain (n : String) (rows : List CondNutrient) :
    ∀ acc : List (String × ℚ),
      lookupD (rows.foldl (fun acc2 r =>
        setA r.nutrient (max (lookupD acc2 r.nutrient 0) r.weight) acc2) acc) n 0
        = lookupD acc n 0
      ∨ ∃ r ∈ rows, r.nutrient = n
          ∧ lookupD (rows.foldl (fun acc2 r =>
              setA r.nutrient (max (lookupD acc2 r.nutrient 0) r.weight) acc2) acc) n 0
            = r.weight := by
  induction rows with
  | nil => intro acc; exact Or.inl rfl
  | cons r0 t ih =>
    intro acc
    simp only [List.foldl_cons]
    rcases ih (setA r0.nutrient (max (lookupD acc r0.nutrient 0) r0.weight) acc)
      with h | ⟨r, hr, hn, hv⟩
    · rw [h, lookupD_setA]
      by_cases h0 : r0.nutrient = n
      · rw [if_pos h0]
        rcases max_choice (lookupD acc r0.nutrient 0) r0.weight with hm | hm
        · exact Or.inl (by rw [hm, h0])
        · exact Or.inr ⟨r0, List.mem_cons_self r0 t, h0, hm⟩
      · rw [if_neg h0]
        exact Or.inl rfl
    · exact Or.inr ⟨r, List.mem_cons_of_mem r0 hr, hn, hv⟩

theorem gap_outer_mono (links : List CondNutrient) (n : String) :
    ∀ (conds : List String) (acc : List (String × ℚ)),
      lookupD acc n 0 ≤ lookupD (conds.foldl (fun acc condition =>
        (links.filter (fun r => r.condition == condition)).foldl
          (fun acc2 r => setA r.nutrient (max (lookupD acc2 r.nutrient 0) r.weight) acc2)
          acc) acc) n 0 := by
  intro conds
  induction conds with
  | nil => intro acc; exact le_refl _
  | cons c cs ih =>
    intro acc
    exact le_trans (gap_inner_mono n (links.filter (fun r => r.condition == c)) acc) (ih _)

theorem gap_outer_ub (links : List CondNutrient) (n : String) :
    ∀ (conds : List String) (acc : List (String × ℚ)), ∀ r ∈ links,
      r.condition ∈ conds → r.nutrient = n →
      r.weight ≤ lookupD (conds.foldl (fun acc condition =>
        (links.filter (fun r => r.condition == condition)).foldl
          (fun acc2 r => setA r.nutrient (max (lookupD acc2 r.nutrient 0) r.weight) acc2)
          acc) acc) n 0 := by
  intro conds
  induction conds with
  | nil => intro acc r _ hc; exact absurd hc (List.not_mem_nil _)
  | cons c cs ih =>
    intro acc r hr hc hn
    rcases List.mem_cons.mp hc with hc | hc
    · refine le_trans ?_ (gap_outer_mono links n cs _)
      exact gap_inner_ub n _ acc r (List.mem_filter.mpr ⟨hr, by simp [hc]⟩) hn
    · exact ih _ r hr hc hn

theorem gap_outer_attain (links : List CondNutrient) (n : String) :
    ∀ (conds : List String) (acc : List (String × ℚ)),
      lookupD (conds.foldl (fun acc condition =>
        (links.filter (fun r => r.condition == condition)).foldl
          (fun acc2 r => setA r.nutrient (max (lookupD acc2 r.nutrient 0) r.weight) acc2)
          acc) acc) n 0 = lookupD acc n 0
      ∨ ∃ r ∈ links, r.condition ∈ conds ∧ r.nutrient = n
          ∧ lookupD (conds.foldl (fun acc condition =>
              (links.filter (fun r => r.condition == condition)).foldl
                (fun acc2 r => setA r.nutrient (max (lookupD acc2 r.nutrient 0) r.weight) acc2)
                acc) acc) n 0 = r.weight := by
  intro conds
  induction conds with
  | nil => intro acc; exact Or.inl rfl
  | cons c cs ih =>
    intro acc
    simp only [List.foldl_cons]
    rcases ih ((links.filter (fun r => r.condition == c)).foldl
        (fun acc2 r => setA r.nutrient (max (lookupD acc2 r.nutrient 0) r.weight) acc2) acc)
      with h | ⟨r, hr, hc, hn, hv⟩
    · rcases gap_inner_attain n (links.filter (fun r => r.condition == c)) acc
        with h2 | ⟨r, hrf, hn, hv⟩
      · rw [h, h2]
        exact Or.inl rfl
      · obtain ⟨hrl, hrc⟩ := List.mem_filter.mp hrf
        refine Or.inr ⟨r, hrl, ?_, hn, by rw [h, hv]⟩
        rw [List.mem_cons]
        exact Or.inl (by simpa using hrc)
    · exact Or.inr ⟨r, hr, List.mem_cons_of_mem c hc, hn, hv⟩

/-- Claim C8: the two scoring components aggregate the same matching link
rows differently — the per-nutrient gap target of
`_calculate_nutrient_gap_fit` (built by `gapTargets`) is the maximum link
weight over the matching rows (an upper bound that is attained, or 0 when
no row matches), while the per-nutrient condition-vector cell of
`_calculate_condition_match` (built by `meanWeight`) is the mean link
weight over the matching rows (count times the cell equals the weight
sum). -/
theorem claim_C8 (links : List CondNutrient) (conds : List String) (n : String) :
    (∀ r ∈ links, r.condition ∈ conds → r.nutrient = n →
      r.weight ≤ lookupD (gapTargets links conds) n 0)
    ∧ (lookupD (gapTargets links conds) n 0 = 0
      ∨ ∃ r ∈ links, r.condition ∈ conds ∧ r.nutrient = n
          ∧ lookupD (gapTargets links conds) n 0 = r.weight)
    ∧ meanWeight (links.filter (fun r => conds.contains r.condition)) n
        * ((((links.filter (fun r => conds.contains r.condition)).filter
            (fun r => r.nutrient == n)).map (fun r => r.weight)).length : ℚ)
      = (((links.filter (fun r => conds.contains r.condition)).filter
          (fun r => r.nutrient == n)).map (fun r => r.weight)).sum := by
  refine ⟨?_, ?_, ?_⟩
  · intro r hr hc hn
    exact gap_outer_ub links n conds [] r hr hc hn
  · rcases gap_outer_attain links n conds [] with h | ⟨r, hr, hc, hn, hv⟩
    · exact Or.inl h
    · exact Or.inr ⟨r, hr, hc, hn, hv⟩
  · unfold meanWeight
    set ws := ((links.filter (fun r => conds.contains r.condition)).filter
        (fun r => r.nutrient == n)).map (fun r => r.weight) with hws
    by_cases h : ws.length = 0
    · rw [if_pos h, List.length_eq_zero.mp h]
      simp
    · rw [if_neg h]
      exact div_mul_cancel₀ _ (by exact_mod_cast h)

theorem claim_C8_witness :
    (sampleLink ∈ [sampleLink] ∧ sampleLink.condition ∈ ["Anemia"]
      ∧ sampleLink.nutrient = "iron")
    ∧ sampleLink.weight ≤ lookupD (gapTargets [sampleLink] ["Anemia"]) "iron" 0 :=
  ⟨⟨List.mem_singleton.mpr rfl, List.mem_singleton.mpr rfl, rfl⟩,
    (claim_C8 [sampleLink] ["Anemia"] "iron").1 sampleLink (List.mem_singleton.mpr rfl)
      (List.mem_singleton.mpr rfl) rfl⟩

instance : IsTotal (Food × ℝ × Scores) rankLE :=
  ⟨fun x y => le_total y.2.1 x.2.1⟩

instance : IsTrans (Food × ℝ × Scores) rankLE :=
  ⟨fun _ _ _ hab hbc => le_trans hbc hab⟩

theorem filter_orderedInsert_rank (c : ℝ) (x : Food × ℝ × Scores)
    (l : List (Food × ℝ × Scores)) :
    (List.orderedInsert rankLE x l).filter (fun y => decide (y.2.1 = c))
      = if x.2.1 = c then x :: l.filter (fun y => decide (y.2.1 = c))
        else l.filter (fun y => decide (y.2.1 = c)) := by
  induction l with
  | nil =>
    by_cases hx : x.2.1 = c
    · simp [List.orderedInsert, hx]
    · simp [List.orderedInsert, hx]
  | cons b t ih =>
    simp only [List.orderedInsert]
    by_cases hr : rankLE x b
    · rw [if_pos hr]
      by_cases hx : x.2.1 = c
      · simp [List.filter_cons, hx]
      · simp [List.filter_cons, hx]
    · rw [if_neg hr]
      have hbx : x.2.1 < b.2.1 := not_le.mp hr
      by_cases hx : x.2.1 = c
      · have hbneq : ¬(b.2.1 = c) := by
          rw [← hx]
          exact ne_of_gt hbx
        simp [List.filter_cons, hbneq, ih, hx]
      · simp [List.filter_cons, ih, hx]

theorem filter_insertionSort_rank (c : ℝ) (l : List (Food × ℝ × Scores)) :
    (List.insertionSort rankLE l).filter (fun y => decide (y.2.1 = c))
      = l.filter (fun y => decide (y.2.1 = c)) := by
  induction l with
  | nil => rfl
  | cons x t ih =>
    simp only [List.insertionSort]
    rw [filter_orderedInsert_rank]
    by_cases hx : x.2.1 = c
    · rw [if_pos hx, ih, List.filter_cons]
      simp [hx]
    · rw [if_neg hx, ih, List.filter_cons]
      simp [hx]

theorem totalScore_init (s : Scores) :
    totalScore initWeights s
      = (4/10 : ℝ) * s.condMatch + (3/10 : ℝ) * s.nutrientGapFit
        + (2/10 : ℝ) * s.availabilityBoost + (1/10 : ℝ) * s.recencyNovelty
        - (8/10 : ℝ) * s.allergyRisk := by
  unfold totalScore initWeights
  norm_num

/-- Claim C7: the ranker assigns each candidate the total
`0.4·CondMatch + 0.3·NutrientGapFit + 0.2·AvailabilityBoost +
0.1·RecencyNovelty − 0.8·AllergyRisk` and returns the scored candidates
sorted by total descending (a permutation of the scored catalog-order
list), with equal-score candidates kept in their original order (the
filter at any score value is unchanged by the sort). -/
theorem claim_C7 (a : Agent) (h : a.weights = initWeights) (candidates : List Food)
    (user : User) (now : DT) (trigger : String) :
    List.Sorted rankLE (rank_candidates a candidates user now trigger)
    ∧ (rank_candidates a candidates user now trigger).Perm
        (candidates.map (fun food =>
          (food, totalScore a.weights (_calculate_scores a food user now trigger),
            _calculate_scores a food user now trigger)))
    ∧ (rank_candidates a candidates user now trigger).map (fun x =>
        (x.1, (4/10 : ℝ) * x.2.2.condMatch + (3/10 : ℝ) * x.2.2.nutrientGapFit
          + (2/10 : ℝ) * x.2.2.availabilityBoost + (1/10 : ℝ) * x.2.2.recencyNovelty
          - (8/10 : ℝ) * x.2.2.allergyRisk, x.2.2))
      = rank_candidates a candidates user now trigger
    ∧ ∀ c : ℝ,
        (rank_candidates a candidates user now trigger).filter (fun x => decide (x.2.1 = c))
        = (candidates.map (fun food =>
            (food, totalScore a.weights (_calculate_scores a food user now trigger),
              _calculate_scores a food user now trigger))).filter
            (fun x => decide (x.2.1 = c)) := by
  refine ⟨?_, ?_, ?_, ?_⟩
  · exact List.sorted_insertionSort rankLE _
  · exact List.perm_insertionSort rankLE _
  · have hmem : ∀ x ∈ rank_candidates a candidates user now trigger,
        (fun x : Food × ℝ × Scores =>
          (x.1, (4/10 : ℝ) * x.2.2.condMatch + (3/10 : ℝ) * x.2.2.nutrientGapFit
            + (2/10 : ℝ) * x.2.2.availabilityBoost + (1/10 : ℝ) * x.2.2.recencyNovelty
            - (8/10 : ℝ) * x.2.2.allergyRisk, x.2.2)) x = x := by
      intro x hx
      unfold rank_candidates at hx
      rw [(List.perm_insertionSort rankLE _).mem_iff, List.mem_map] at hx
      obtain ⟨food, -, hfx⟩ := hx
      rw [← hfx]
      simp only
      rw [h, totalScore_init]
    calc (rank_candidates a candidates user now trigger).map _
        = (rank_candidates a candidates user now trigger).map id :=
          List.map_congr_left hmem
      _ = _ := List.map_id _
  · exact fun c => filter_insertionSort_rank c _

theorem claim_C7_witness :
    (A10.weights = initWeights)
    ∧ List.Sorted rankLE (rank_candidates A10 [] sampleUser now10 "pre_lunch") :=
  ⟨rfl, (claim_C7 A10 rfl [] sampleUser now10 "pre_lunch").1⟩

theorem recordOf_update_self (a : Agent) (uid : String) (n : NotificationCandidate)
    (now : DT) :
    recordOf (_update_recent_notifications a uid n now) uid
      = lastN 20 (recordOf a uid
          ++ [{ food_id := n.food.food_id, timestamp := now.utc, trig := "recent" }]) := by
  conv_lhs => rw [_update_recent_notifications, recordOf, lookupD]
  rw [lookupA_setA_self]
  rfl

theorem recordOf_update_ne (a : Agent) (uid : String) (n : NotificationCandidate)
    (now : DT) (u : String) (h : u ≠ uid) :
    recordOf (_update_recent_notifications a uid n now) u = recordOf a u := by
  conv_lhs => rw [_update_recent_notifications, recordOf, lookupD]
  rw [lookupA_setA_ne _ _ _ _ h]
  rfl

theorem foldl_record_le (user : User) (uid : String) (now : DT) :
    ∀ (l : List String) (acc : List Bundle × Agent),
      (∀ u, (recordOf acc.2 u).length ≤ 20) →
      ∀ u, (recordOf (l.foldl (processTrigger user uid now) acc).2 u).length ≤ 20 := by
  intro l
  induction l with
  | nil => exact fun acc h => h
  | cons t ts ih =>
    intro acc h
    apply ih
    intro u
    rcases processTrigger_cases user uid now acc t with heq | ⟨b0, n0, -, -, heq⟩
    · rw [heq]
      exact h u
    · rw [heq]
      by_cases hu : u = uid
      · subst hu
        rw [recordOf_update_self]
        exact lastN_length_le 20 _
      · rw [recordOf_update_ne _ _ _ _ _ hu]
        exact h u

/-- Claim C9: each successful trigger appends exactly one
`{food_id, timestamp}` entry to the user's RecencyRecord and immediately
truncates it to its most recent 20 entries (other users' records are
untouched); hence a call to `generate_notifications` preserves the
invariant that every user's record has length at most 20. -/
theorem claim_C9 :
    (∀ (a : Agent) (uid : String) (n : NotificationCandidate) (now : DT),
      recordOf (_update_recent_notifications a uid n now) uid
        = lastN 20 (recordOf a uid
            ++ [{ food_id := n.food.food_id, timestamp := now.utc, trig := "recent" }])
      ∧ (recordOf (_update_recent_notifications a uid n now) uid).length ≤ 20
      ∧ ∀ u, u ≠ uid →
          recordOf (_update_recent_notifications a uid n now) u = recordOf a u)
    ∧ ∀ (a : Agent) (uid : String) (now : DT),
        (∀ u, (recordOf a u).length ≤ 20) →
        ∀ u, (recordOf (generate_notifications a uid now).2 u).length ≤ 20 := by
  constructor
  · intro a uid n now
    refine ⟨recordOf_update_self a uid n now, ?_, ?_⟩
    · rw [recordOf_update_self]
      exact lastN_length_le 20 _
    · exact fun u hu => recordOf_update_ne a uid n now u hu
  · intro a uid now h20
    unfold generate_notifications
    cases hu : lookupA a.users uid with
    | none => exact h20
    | some user =>
      by_cases hc : _check_rate_limits a uid now = true
      · simp only [hc, Bool.not_true, Bool.false_eq_true, if_false]
        by_cases hti : (resolve_triggers a user now).isEmpty = true
        · rw [if_pos hti]
          exact h20
        · rw [if_neg hti]
          exact foldl_record_le user uid now (resolve_triggers a user now) ([], a) h20
      · rw [Bool.not_eq_true] at hc
        simp only [hc, Bool.not_false, if_true]
        exact h20

theorem claim_C9_witness :
    (∀ u, (recordOf A9 u).length ≤ 20)
    ∧ ∀ u, (recordOf (generate_notifications A9 "u1" now10).2 u).length ≤ 20 :=
  ⟨fun _ => Nat.zero_le 20, claim_C9.2 A9 "u1" now10 (fun _ => Nat.zero_le 20)⟩

theorem foldl_record_news (a : Agent) (user : User) (uid : String) (now : DT) :
    ∀ (l : List String) (acc : List Bundle × Agent),
      (∃ news : List RecentNotif,
        (∀ e ∈ news, e.timestamp = now.utc ∧ e.trig = "recent")
        ∧ news.length = acc.1.length
        ∧ recordOf acc.2 uid = lastN 20 (recordOf a uid ++ news)) →
      ∃ news : List RecentNotif,
        (∀ e ∈ news, e.timestamp = now.utc ∧ e.trig = "recent")
        ∧ news.length = (l.foldl (processTrigger user uid now) acc).1.length
        ∧ recordOf (l.foldl (processTrigger user uid now) acc).2 uid
            = lastN 20 (recordOf a uid ++ news) := by
  intro l
  induction l with
  | nil => exact fun acc h => h
  | cons t ts ih =>
    intro acc h
    obtain ⟨news, hts, hlen, hrec⟩ := h
    apply ih
    rcases processTrigger_cases user uid now acc t with heq | ⟨b0, n0, -, -, heq⟩
    · rw [heq]
      exact ⟨news, hts, hlen, hrec⟩
    · rw [heq]
      refine ⟨news ++ [{ food_id := n0.food.food_id, timestamp := now.utc, trig := "recent" }],
        ?_, ?_, ?_⟩
      · intro e he
        rcases List.mem_append.mp he with he | he
        · exact hts e he
        · rw [List.mem_singleton.mp he]
          exact ⟨rfl, rfl⟩
      · simp only [List.length_append, List.length_singleton]
        rw [hlen]
      · show recordOf (_update_recent_notifications acc.2 uid n0 now) uid = _
        rw [recordOf_update_self, hrec, lastN_lastN_append, List.append_assoc]

/-- Claim C10: rate limits are checked once per call, before trigger
resolution — every entry recorded by one call bears the call's timestamp
`now`, one entry per returned bundle, appended to the prior record with
only the 20-entry truncation in between; concretely, one call on `A10`
returns 3 bundles and appends 3 same-timestamp entries after a single
prior entry, leaving more than 2 entries recorded for the current day and
a most-recent gap below 3 hours (the very next call would be
rate-limited). -/
theorem claim_C10 :
    (∀ (a : Agent) (uid : String) (now : DT),
      (recordOf a uid).length ≤ 20 →
      ∃ news : List RecentNotif,
        (∀ e ∈ news, e.timestamp = now.utc ∧ e.trig = "recent")
        ∧ news.length = (generate_notifications a uid now).1.length
        ∧ recordOf (generate_notifications a uid now).2 uid
            = lastN 20 (recordOf a uid ++ news))
    ∧ (generate_notifications A10 "u1" now10).1.length = 3
    ∧ recordOf (generate_notifications A10 "u1" now10).2 "u1"
        = [prior10, { food_id := "f1", timestamp := now10.utc, trig := "recent" },
           { food_id := "f1", timestamp := now10.utc, trig := "recent" },
           { food_id := "f1", timestamp := now10.utc, trig := "recent" }]
    ∧ 2 < ((recordOf (generate_notifications A10 "u1" now10).2 "u1").filter
          (fun e => decide (midnightOf now10 ≤ e.timestamp))).length
    ∧ _check_rate_limits (generate_notifications A10 "u1" now10).2 "u1"
        ⟨now10.utc + 1, now10.off⟩ = false := by
  refine ⟨?_, by decide, by decide, by decide, by decide⟩
  intro a uid now h20
  have hbase : ∃ news : List RecentNotif,
      (∀ e ∈ news, e.timestamp = now.utc ∧ e.trig = "recent")
      ∧ news.length = (([] : List Bundle), a).1.length
      ∧ recordOf (([] : List Bundle), a).2 uid = lastN 20 (recordOf a uid ++ news) := by
    refine ⟨[], by simp, rfl, ?_⟩
    rw [List.append_nil, lastN_of_length_le 20 _ h20]
  unfold generate_notifications
  cases hu : lookupA a.users uid with
  | none => exact hbase
  | some user =>
    by_cases hc : _check_rate_limits a uid now = true
    · simp only [hc, Bool.not_true, Bool.false_eq_true, if_false]
      by_cases hti : (resolve_triggers a user now).isEmpty = true
      · rw [if_pos hti]
        exact hbase
      · rw [if_neg hti]
        exact foldl_record_news a user uid now (resolve_triggers a user now) ([], a) hbase
    · rw [Bool.not_eq_true] at hc
      simp only [hc, Bool.not_false, if_true]
      exact hbase

theorem claim_C10_witness :
    ((recordOf A10 "u1").length ≤ 20)
    ∧ ∃ news : List RecentNotif,
        (∀ e ∈ news, e.timestamp = now10.utc ∧ e.trig = "recent")
        ∧ news.length = (generate_notifications A10 "u1" now10).1.length
        ∧ recordOf (generate_notifications A10 "u1" now10).2 "u1"
            = lastN 20 (recordOf A10 "u1" ++ news) :=
  ⟨by decide, claim_C10.1 A10 "u1" now10 (by decide)⟩

end Nutrition
